import Mathlib

/-! Wakelock shim of the aic8800 driver (`rwnx_wakelock.c`).

A shallow embedding of `rwnx_wakelock.c`.  A `struct wakeup_source *` is an
`Option Nat`: `none` is `NULL`, `some p` is the address `p`.  The kernel's
power-management subsystem is the explicit state `PmEnv`; every shim function
takes the state and returns the new one (together with its C return value,
when it has one).  Each kernel primitive appends the call it received to
`PmEnv.calls`, so that theorems can speak about which primitives were invoked,
with which arguments, and in which order.
-/

namespace Rwnx

/-! ## The environment: kernel wakeup sources -/

/-- Modelled from the spec: the kernel's `struct wakeup_source` is declared
outside the sources.  These are the attributes the shim and the specification
talk about: the diagnostic name, the owning device (`none` when
unbound) and the held flag `active`. -/
structure wakeup_source where
  name : String
  dev : Option Nat
  active : Bool
deriving DecidableEq

/-- Modelled from the spec: one call received by the wake-source primitives
of the environment (the consumed capabilities of the specification).  The
two registration forms are the two historical signatures of
`wakeup_source_register`: `(dev, name)` and the old `(name)`; both record the
pointer they returned. -/
inductive PmCall where
  | wakeup_source_register (dev : Option Nat) (name : String) (ret : Option Nat)
  | wakeup_source_register_name (name : String) (ret : Option Nat)
  | wakeup_source_unregister (ws : Nat)
  | __pm_relax (ws : Nat)
  | __pm_stay_awake (ws : Nat)
  | __pm_wakeup_event (ws : Nat) (msec : Nat)
deriving DecidableEq

/-- Modelled from the spec: state of the environment, the kernel's
power-management subsystem plus the driver log.
* `sources`: the registered wakeup sources, keyed by address;
* `alloc_fail`: the outcome of the coming registrations, in order (`true`:
  the allocation fails and the registration returns `NULL`); once the list is
  used up registrations succeed;
* `calls`: the wake-source primitive calls received so far, oldest first;
* `logdebug`: whether the `LOGDEBUG` level of the driver log is enabled;
* `log`: the lines printed by the driver log. -/
structure PmEnv where
  sources : List (Nat × wakeup_source)
  alloc_fail : List Bool
  calls : List PmCall
  logdebug : Bool
  log : List String
deriving DecidableEq

/-- Value of `ws->active`.  Reading through a pointer that is not a registered
source is undefined in C; the model reads `false` there. -/
def PmEnv.active (env : PmEnv) (ws : Nat) : Bool :=
  match env.sources.lookup ws with
  | some s => s.active
  | none => false

/-- Whether `ws` is the address of a registered source. -/
def PmEnv.registered (env : PmEnv) (ws : Nat) : Bool :=
  (env.sources.lookup ws).isSome

/-- Held-state of a handle: a null handle is never held. -/
def PmEnv.held (env : PmEnv) (h : Option Nat) : Bool :=
  match h with
  | none => false
  | some ws => env.active ws

/-- Modelled from the spec: address handed out by the next successful
registration, one that no registered source occupies. -/
def fresh_addr (l : List (Nat × wakeup_source)) : Nat :=
  (l.map Prod.fst).foldr max 0 + 1

/-- Modelled from the spec: the environment sets the held flag `active` of
the source at address `ws`. -/
def set_active (ws : Nat) (b : Bool) (l : List (Nat × wakeup_source)) :
    List (Nat × wakeup_source) :=
  l.map (fun e => if e.1 = ws then (e.1, { e.2 with active := b }) else e)

/-- Modelled from the spec: outcome of a registration in the environment.
It allocates a released source with the given
name and device unless the environment has no memory for it, in which case
nothing is registered and the result is `NULL`. -/
def PmEnv.alloc (env : PmEnv) (dev : Option Nat) (name : String) :
    List (Nat × wakeup_source) × Option Nat :=
  if env.alloc_fail.headD false then (env.sources, none)
  else
    let p := fresh_addr env.sources
    ((p, { name := name, dev := dev, active := false }) :: env.sources, some p)

/-- Modelled from the spec: the kernel primitive
`wakeup_source_register(dev, name)` is not part of the sources; it is the
consumed capability register(deviceOrNull, name) → handle, which returns a
null handle when the environment cannot allocate one. -/
def wakeup_source_register (env : PmEnv) (dev : Option Nat) (name : String) :
    PmEnv × Option Nat :=
  let r := env.alloc dev name
  ({ env with
      sources := r.1
      alloc_fail := env.alloc_fail.tail
      calls := env.calls ++ [PmCall.wakeup_source_register dev name r.2] }, r.2)

/-- Modelled from the spec: the name-only `wakeup_source_register(name)` of
old kernels is not part of the sources; it registers a source that is bound to
no device. -/
def wakeup_source_register_name (env : PmEnv) (name : String) : PmEnv × Option Nat :=
  let r := env.alloc none name
  ({ env with
      sources := r.1
      alloc_fail := env.alloc_fail.tail
      calls := env.calls ++ [PmCall.wakeup_source_register_name name r.2] }, r.2)

/-- Modelled from the spec: the kernel primitive `wakeup_source_unregister`
is not part of the sources; it is the consumed capability unregister(handle),
which removes the source from the registered ones and destroys it. -/
def wakeup_source_unregister (env : PmEnv) (ws : Nat) : PmEnv :=
  { env with
    sources := env.sources.filter (fun e => e.1 ≠ ws)
    calls := env.calls ++ [PmCall.wakeup_source_unregister ws] }

/-- Modelled from the spec: the kernel primitive `__pm_relax` is not part of
the sources; it is the consumed capability mark-released(handle). -/
def __pm_relax (env : PmEnv) (ws : Nat) : PmEnv :=
  { env with
    sources := set_active ws false env.sources
    calls := env.calls ++ [PmCall.__pm_relax ws] }

/-- Modelled from the spec: the kernel primitive `__pm_stay_awake` is not part
of the sources; it is the consumed capability mark-held(handle). -/
def __pm_stay_awake (env : PmEnv) (ws : Nat) : PmEnv :=
  { env with
    sources := set_active ws true env.sources
    calls := env.calls ++ [PmCall.__pm_stay_awake ws] }

/-- Modelled from the spec: the kernel primitive `__pm_wakeup_event` is not
part of the sources; it is the consumed capability
mark-held-with-expiry(handle, ms).  The source is held for the duration; a
duration of 0 expires at once.  The later expiry of a positive duration is a
matter of real time and is not modelled. -/
def __pm_wakeup_event (env : PmEnv) (ws : Nat) (msec : Nat) : PmEnv :=
  { env with
    sources := set_active ws (decide (msec ≠ 0)) env.sources
    calls := env.calls ++ [PmCall.__pm_wakeup_event ws msec] }

/-- Modelled from the spec: the driver's log facility is declared in a header
that is not part of the sources; logging is informational only.
`AICWFDBG(LOGDEBUG, ...)` prints the line when the `LOGDEBUG` level is
enabled and touches no wakeup source. -/
def AICWFDBG (env : PmEnv) (line : String) : PmEnv :=
  if env.logdebug then { env with log := env.log ++ [line] } else env

/-! ## Build configuration -/

/-- The preprocessor symbols that `rwnx_wakeup_register` tests. -/
structure BuildConfig where
  LINUX_VERSION_CODE : Nat
  CONFIG_PLATFORM_ROCKCHIP2 : Bool
  CONFIG_PLATFORM_ROCKCHIP : Bool
deriving DecidableEq

/-- Modelled from the spec: `KERNEL_VERSION` comes from the kernel header
`linux/version.h`, which is not part of the sources; the spec only speaks of a
declared environment version.  The encoding is the kernel's:
`(a << 16) + (b << 8) + c`. -/
def KERNEL_VERSION (a b c : Nat) : Nat :=
  (a <<< 16) + (b <<< 8) + c

/-! ## The shim (`rwnx_wakelock.c`) -/

/-- `struct wakeup_source *rwnx_wakeup_init(const char *name)`. -/
def rwnx_wakeup_init (env : PmEnv) (name : String) : PmEnv × Option Nat :=
  wakeup_source_register env none name

/-- `void rwnx_wakeup_deinit(struct wakeup_source *ws)`. -/
def rwnx_wakeup_deinit (env : PmEnv) (ws : Option Nat) : PmEnv :=
  match ws with
  | none => env
  | some p =>
    let env1 := if env.active p then __pm_relax env p else env
    wakeup_source_unregister env1 p

/-- `struct wakeup_source *rwnx_wakeup_register(struct device *dev, const char *name)`,
with the conditional compilation resolved by `cfg`. -/
def rwnx_wakeup_register (cfg : BuildConfig) (env : PmEnv) (dev : Option Nat)
    (name : String) : PmEnv × Option Nat :=
  if cfg.LINUX_VERSION_CODE ≥ KERNEL_VERSION 5 4 0 then
    wakeup_source_register env dev name
  else
    if cfg.CONFIG_PLATFORM_ROCKCHIP2 || cfg.CONFIG_PLATFORM_ROCKCHIP then
      if cfg.LINUX_VERSION_CODE ≥ KERNEL_VERSION 4 5 0 then
        wakeup_source_register env dev name
      else
        wakeup_source_register_name env name
    else
      wakeup_source_register_name env name

/-- `void rwnx_wakeup_unregister(struct wakeup_source *ws)`. -/
def rwnx_wakeup_unregister (env : PmEnv) (ws : Option Nat) : PmEnv :=
  match ws with
  | none => env
  | some p =>
    let env1 := if env.active p then __pm_relax env p else env
    wakeup_source_unregister env1 p

/-- `void rwnx_wakeup_lock(struct wakeup_source *ws)`. -/
def rwnx_wakeup_lock (env : PmEnv) (ws : Option Nat) : PmEnv :=
  let env1 := AICWFDBG env "rwnx_wakeup_lock enter \r\n"
  match ws with
  | some p => __pm_stay_awake env1 p
  | none => env1

/-- `void rwnx_wakeup_unlock(struct wakeup_source *ws)`. -/
def rwnx_wakeup_unlock (env : PmEnv) (ws : Option Nat) : PmEnv :=
  let env1 := AICWFDBG env "rwnx_wakeup_unlock enter \r\n"
  match ws with
  | some p => __pm_relax env1 p
  | none => env1

/-- `void rwnx_wakeup_lock_timeout(struct wakeup_source *ws, unsigned int msec)`. -/
def rwnx_wakeup_lock_timeout (env : PmEnv) (ws : Option Nat) (msec : Nat) : PmEnv :=
  match ws with
  | some p => __pm_wakeup_event env p msec
  | none => env

/-- Modelled from the spec: `struct rwnx_hw` is declared in `rwnx_defs.h`,
which is not part of the sources.  The hardware context owns exactly four
wake-lock handles, the fields that `rwnx_wakelock.c` reads and writes. -/
structure rwnx_hw where
  ws_tx : Option Nat
  ws_rx : Option Nat
  ws_irqrx : Option Nat
  ws_pwrctrl : Option Nat
deriving DecidableEq

/-- `void aicwf_wakeup_lock_init(struct rwnx_hw *rwnx_hw)`. -/
def aicwf_wakeup_lock_init (env : PmEnv) (hw : rwnx_hw) : PmEnv × rwnx_hw :=
  let r1 := rwnx_wakeup_init env "rwnx_tx_wakelock"
  let hw1 := { hw with ws_tx := r1.2 }
  let r2 := rwnx_wakeup_init r1.1 "rwnx_rx_wakelock"
  let hw2 := { hw1 with ws_rx := r2.2 }
  let r3 := rwnx_wakeup_init r2.1 "rwnx_irqrx_wakelock"
  let hw3 := { hw2 with ws_irqrx := r3.2 }
  let r4 := rwnx_wakeup_init r3.1 "rwnx_pwrcrl_wakelock"
  let hw4 := { hw3 with ws_pwrctrl := r4.2 }
  (r4.1, hw4)

/-- `void aicwf_wakeup_lock_deinit(struct rwnx_hw *rwnx_hw)`. -/
def aicwf_wakeup_lock_deinit (env : PmEnv) (hw : rwnx_hw) : PmEnv × rwnx_hw :=
  let env1 := rwnx_wakeup_deinit env hw.ws_tx
  let env2 := rwnx_wakeup_deinit env1 hw.ws_rx
  let env3 := rwnx_wakeup_deinit env2 hw.ws_irqrx
  let env4 := rwnx_wakeup_deinit env3 hw.ws_pwrctrl
  let hw1 := { hw with ws_tx := none }
  let hw2 := { hw1 with ws_rx := none }
  let hw3 := { hw2 with ws_irqrx := none }
  let hw4 := { hw3 with ws_pwrctrl := none }
  (env4, hw4)


/-! ## Auxiliary definitions used by the statements -/

/-- The source table without the source a handle points to; a null handle
removes nothing. -/
def drop_handle (h : Option Nat) (l : List (Nat × wakeup_source)) :
    List (Nat × wakeup_source) :=
  match h with
  | none => l
  | some p => l.filter (fun e => e.1 ≠ p)

/-- The environment calls expected from deinitialising the handle `h` in the
state `env`: none for a null handle, otherwise a release when the source is
held, followed by the unregistration. -/
def deinit_calls (env : PmEnv) (h : Option Nat) : List PmCall :=
  match h with
  | none => []
  | some p =>
    if env.active p then [PmCall.__pm_relax p, PmCall.wakeup_source_unregister p]
    else [PmCall.wakeup_source_unregister p]

/-- The configurations in which registration is bound to the device, in the
words of the specification: the kernel version is at least 5.4.0, or a
Rockchip platform flag is defined and the version is at least 4.5.0. -/
def uses_bound_form (cfg : BuildConfig) : Bool :=
  decide (KERNEL_VERSION 5 4 0 ≤ cfg.LINUX_VERSION_CODE) ||
    ((cfg.CONFIG_PLATFORM_ROCKCHIP2 || cfg.CONFIG_PLATFORM_ROCKCHIP) &&
      decide (KERNEL_VERSION 4 5 0 ≤ cfg.LINUX_VERSION_CODE))

/-- The four handles of a hardware context, in the order in which
`aicwf_wakeup_lock_deinit` processes them. -/
def rwnx_hw.handles (hw : rwnx_hw) : List (Option Nat) :=
  [hw.ws_tx, hw.ws_rx, hw.ws_irqrx, hw.ws_pwrctrl]

/-! ## Lemmas on the source table -/

theorem lookup_set_active_ne (p q : Nat) (b : Bool) (l : List (Nat × wakeup_source))
    (hq : q ≠ p) : (set_active p b l).lookup q = l.lookup q := by
  induction l with
  | nil => rfl
  | cons e l ih =>
    obtain ⟨k, s⟩ := e
    by_cases hk : k = p
    · subst hk
      have hqk : (q == k) = false := by simpa using hq
      simp only [set_active, List.map_cons, if_true, List.lookup_cons, hqk] at ih ⊢
      exact ih
    · by_cases hqk : q = k
      · subst hqk
        simp [set_active, List.lookup_cons, hk]
      · have hqk2 : (q == k) = false := by simpa using hqk
        simp only [set_active, List.map_cons, if_neg hk, List.lookup_cons, hqk2] at ih ⊢
        exact ih

theorem lookup_set_active_self (p : Nat) (b : Bool) (l : List (Nat × wakeup_source)) :
    (set_active p b l).lookup p = (l.lookup p).map (fun s => { s with active := b }) := by
  induction l with
  | nil => rfl
  | cons e l ih =>
    obtain ⟨k, s⟩ := e
    by_cases hk : k = p
    · subst hk
      simp [set_active, List.lookup_cons]
    · have hpk : (p == k) = false := by simpa using (Ne.symm hk)
      simp only [set_active, List.map_cons, if_neg hk, List.lookup_cons, hpk] at ih ⊢
      exact ih

theorem filter_set_active (p : Nat) (b : Bool) (l : List (Nat × wakeup_source)) :
    (set_active p b l).filter (fun e => e.1 ≠ p) = l.filter (fun e => e.1 ≠ p) := by
  induction l with
  | nil => rfl
  | cons e l ih =>
    obtain ⟨k, s⟩ := e
    by_cases hk : k = p
    · subst hk
      simpa [set_active] using ih
    · simpa [set_active, hk] using ih

theorem lookup_filter_ne (p q : Nat) (l : List (Nat × wakeup_source)) (hq : q ≠ p) :
    (l.filter (fun e => e.1 ≠ p)).lookup q = l.lookup q := by
  induction l with
  | nil => rfl
  | cons e l ih =>
    obtain ⟨k, s⟩ := e
    by_cases hk : k = p
    · subst hk
      have hqk : (q == k) = false := by simpa using hq
      simpa [List.lookup_cons, hqk] using ih
    · by_cases hqk : q = k
      · subst hqk
        simp [List.lookup_cons, hk]
      · have hqk2 : (q == k) = false := by simpa using hqk
        simpa [List.lookup_cons, hqk2, hk] using ih

theorem lookup_filter_self (p : Nat) (l : List (Nat × wakeup_source)) :
    (l.filter (fun e => e.1 ≠ p)).lookup p = none := by
  induction l with
  | nil => rfl
  | cons e l ih =>
    obtain ⟨k, s⟩ := e
    by_cases hk : k = p
    · subst hk
      simpa using ih
    · have hpk : (p == k) = false := by simpa using (Ne.symm hk)
      simpa [List.lookup_cons, hpk, hk] using ih

theorem fresh_addr_gt (l : List (Nat × wakeup_source)) (e : Nat × wakeup_source)
    (he : e ∈ l) : e.1 < fresh_addr l := by
  induction l with
  | nil => cases he
  | cons x l ih =>
    simp only [fresh_addr, List.map_cons, List.foldr_cons] at ih ⊢
    rcases List.mem_cons.mp he with h | h
    · subst h
      omega
    · have := ih h
      omega

theorem filter_fresh_addr (l : List (Nat × wakeup_source)) :
    l.filter (fun e => e.1 ≠ fresh_addr l) = l := by
  apply List.filter_eq_self.mpr
  intro e he
  have := fresh_addr_gt l e he
  simp
  omega

theorem active_relax_self (env : PmEnv) (ws : Nat) : (__pm_relax env ws).active ws = false := by
  simp only [PmEnv.active, __pm_relax, lookup_set_active_self]
  cases env.sources.lookup ws <;> rfl

theorem registered_unregister_self (env : PmEnv) (ws : Nat) :
    (wakeup_source_unregister env ws).registered ws = false := by
  show ((env.sources.filter (fun e => e.1 ≠ ws)).lookup ws).isSome = false
  rw [lookup_filter_self]
  rfl

/-! ## Single-handle operations -/

/-- C1: for a non-null handle `ws`, `rwnx_wakeup_deinit` unregisters from a
state `mid` in which `ws` is not held: `mid` is the entry state after
`__pm_relax(ws)` when `ws` was active, and the entry state itself otherwise.
The calls issued are `__pm_relax(ws)` then `wakeup_source_unregister(ws)` in the
first case and `wakeup_source_unregister(ws)` alone in the second; the
unregistration occurs exactly once, and `ws` is no longer registered. -/
theorem rwnx_wakeup_deinit_relax_before_unregister (env : PmEnv) (ws : Nat) :
    (rwnx_wakeup_deinit env (some ws) =
        wakeup_source_unregister (if env.active ws then __pm_relax env ws else env) ws)
    ∧ (if env.active ws then __pm_relax env ws else env).active ws = false
    ∧ (rwnx_wakeup_deinit env (some ws)).calls = env.calls ++ deinit_calls env (some ws)
    ∧ (env.active ws = true → deinit_calls env (some ws) =
        [PmCall.__pm_relax ws, PmCall.wakeup_source_unregister ws])
    ∧ (env.active ws = false → deinit_calls env (some ws) =
        [PmCall.wakeup_source_unregister ws])
    ∧ (deinit_calls env (some ws)).count (PmCall.wakeup_source_unregister ws) = 1
    ∧ (rwnx_wakeup_deinit env (some ws)).registered ws = false := by
  refine ⟨rfl, ?_, ?_, ?_, ?_, ?_, ?_⟩
  · by_cases h : env.active ws = true
    · rw [if_pos h]
      exact active_relax_self env ws
    · rw [if_neg h]
      simpa using h
  · by_cases h : env.active ws = true
    · simp [rwnx_wakeup_deinit, deinit_calls, h, wakeup_source_unregister, __pm_relax]
    · simp [rwnx_wakeup_deinit, deinit_calls, h, wakeup_source_unregister]
  · intro h
    simp [deinit_calls, h]
  · intro h
    simp [deinit_calls, h]
  · by_cases h : env.active ws = true
    · simp [deinit_calls, h]
    · simp [deinit_calls, h]
  · exact registered_unregister_self _ ws

/-- Witness of C1: a held source at address 7 is released, then unregistered. -/
theorem rwnx_wakeup_deinit_relax_before_unregister_witness :
    (rwnx_wakeup_deinit ⟨[(7, ⟨"w", none, true⟩)], [], [], false, []⟩ (some 7)).calls =
        [PmCall.__pm_relax 7, PmCall.wakeup_source_unregister 7]
    ∧ deinit_calls ⟨[(7, ⟨"w", none, true⟩)], [], [], false, []⟩ (some 7) =
        [PmCall.__pm_relax 7, PmCall.wakeup_source_unregister 7] :=
  ⟨by decide,
   (rwnx_wakeup_deinit_relax_before_unregister
      ⟨[(7, ⟨"w", none, true⟩)], [], [], false, []⟩ 7).2.2.2.1 (by decide)⟩

/-- C2: with a null handle each of the five runtime operations issues no call
to the wake-source primitives and leaves the registered sources, their held
flags and the pending allocation outcomes as they were.  `rwnx_wakeup_deinit`,
`rwnx_wakeup_unregister` and `rwnx_wakeup_lock_timeout` (for any `msec`) leave
the whole state unchanged; `rwnx_wakeup_lock` and `rwnx_wakeup_unlock` at most
print their entry line to the driver log.  All five are total functions. -/
theorem null_handle_no_op (env : PmEnv) (msec : Nat) :
    rwnx_wakeup_deinit env none = env
    ∧ rwnx_wakeup_unregister env none = env
    ∧ rwnx_wakeup_lock_timeout env none msec = env
    ∧ ((rwnx_wakeup_lock env none).calls = env.calls
        ∧ (rwnx_wakeup_lock env none).sources = env.sources
        ∧ (rwnx_wakeup_lock env none).alloc_fail = env.alloc_fail)
    ∧ ((rwnx_wakeup_unlock env none).calls = env.calls
        ∧ (rwnx_wakeup_unlock env none).sources = env.sources
        ∧ (rwnx_wakeup_unlock env none).alloc_fail = env.alloc_fail) := by
  refine ⟨rfl, rfl, rfl, ?_, ?_⟩
  · cases h : env.logdebug <;> simp [rwnx_wakeup_lock, AICWFDBG, h]
  · cases h : env.logdebug <;> simp [rwnx_wakeup_unlock, AICWFDBG, h]

/-- C7: for a non-null handle `ws` and any duration `msec` (0 included),
`rwnx_wakeup_lock_timeout` issues exactly one environment call, namely
`__pm_wakeup_event` on `ws` with the duration `msec` itself. -/
theorem rwnx_wakeup_lock_timeout_forwards (env : PmEnv) (ws msec : Nat) :
    (rwnx_wakeup_lock_timeout env (some ws) msec).calls =
      env.calls ++ [PmCall.__pm_wakeup_event ws msec]
    ∧ rwnx_wakeup_lock_timeout env (some ws) msec = __pm_wakeup_event env ws msec :=
  ⟨rfl, rfl⟩

/-- C8: `rwnx_wakeup_unregister` and `rwnx_wakeup_deinit` agree on every
handle and every environment state: same resulting state, hence the same
sequence of environment calls and the same registered sources. -/
theorem rwnx_wakeup_unregister_eq_deinit (env : PmEnv) (h : Option Nat) :
    rwnx_wakeup_unregister env h = rwnx_wakeup_deinit env h
    ∧ (rwnx_wakeup_unregister env h).calls = (rwnx_wakeup_deinit env h).calls
    ∧ (rwnx_wakeup_unregister env h).sources = (rwnx_wakeup_deinit env h).sources := by
  cases h <;> exact ⟨rfl, rfl, rfl⟩

theorem AICWFDBG_sources (env : PmEnv) (line : String) :
    (AICWFDBG env line).sources = env.sources := by
  unfold AICWFDBG
  split <;> rfl

theorem rwnx_wakeup_lock_sources (env : PmEnv) (h : Option Nat) :
    (rwnx_wakeup_lock env h).sources =
      match h with
      | none => env.sources
      | some p => set_active p true env.sources := by
  cases h with
  | none => exact AICWFDBG_sources env _
  | some p =>
    show set_active p true (AICWFDBG env _).sources = _
    rw [AICWFDBG_sources]

theorem rwnx_wakeup_unlock_sources (env : PmEnv) (h : Option Nat) :
    (rwnx_wakeup_unlock env h).sources =
      match h with
      | none => env.sources
      | some p => set_active p false env.sources := by
  cases h with
  | none => exact AICWFDBG_sources env _
  | some p =>
    show set_active p false (AICWFDBG env _).sources = _
    rw [AICWFDBG_sources]

theorem set_active_idem (p : Nat) (b : Bool) (l : List (Nat × wakeup_source)) :
    set_active p b (set_active p b l) = set_active p b l := by
  induction l with
  | nil => rfl
  | cons e l ih =>
    obtain ⟨k, s⟩ := e
    by_cases hk : k = p
    · subst hk
      simpa [set_active] using ih
    · simpa [set_active, hk] using ih

theorem active_of_sources_eq (e1 e2 : PmEnv) (hs : e1.sources = e2.sources) (ws : Nat) :
    e1.active ws = e2.active ws := by
  simp only [PmEnv.active, hs]

/-- C5: for every handle `h` and every `n ≥ 1`, `n` consecutive calls of
`rwnx_wakeup_lock` on `h` leave the same source table, hence the same held
flag on every source, as a single call; and a single call on a registered
handle does mark it held. -/
theorem rwnx_wakeup_lock_idempotent (env : PmEnv) (h : Option Nat) (n : Nat) (hn : 1 ≤ n) :
    (Nat.iterate (fun e => rwnx_wakeup_lock e h) n env).sources =
        (rwnx_wakeup_lock env h).sources
    ∧ (∀ ws, (Nat.iterate (fun e => rwnx_wakeup_lock e h) n env).active ws =
        (rwnx_wakeup_lock env h).active ws)
    ∧ (Nat.iterate (fun e => rwnx_wakeup_lock e h) n env).held h =
        (rwnx_wakeup_lock env h).held h
    ∧ (∀ ws, h = some ws → env.registered ws = true →
        (rwnx_wakeup_lock env h).held h = true) := by
  have key : (Nat.iterate (fun e => rwnx_wakeup_lock e h) n env).sources =
      (rwnx_wakeup_lock env h).sources := by
    induction n with
    | zero => omega
    | succ m ih =>
      rcases Nat.eq_zero_or_pos m with hm | hm
      · subst hm
        rfl
      · have ih2 := ih hm
        rw [Function.iterate_succ_apply']
        rw [rwnx_wakeup_lock_sources, ih2, rwnx_wakeup_lock_sources]
        cases h with
        | none => rfl
        | some p => exact set_active_idem p true env.sources
  refine ⟨key, fun ws => active_of_sources_eq _ _ key ws, ?_, ?_⟩
  · cases h with
    | none => rfl
    | some p => exact active_of_sources_eq _ _ key p
  · intro ws hws hreg
    subst hws
    show (rwnx_wakeup_lock env (some ws)).active ws = true
    unfold PmEnv.active
    rw [rwnx_wakeup_lock_sources]
    show (match (set_active ws true env.sources).lookup ws with
      | some s => s.active
      | none => false) = true
    rw [lookup_set_active_self]
    unfold PmEnv.registered at hreg
    cases hl : env.sources.lookup ws with
    | none => simp [hl] at hreg
    | some s => rfl

/-- Witness of C5: three locks of a registered, released source. -/
theorem rwnx_wakeup_lock_idempotent_witness :
    (Nat.iterate (fun e => rwnx_wakeup_lock e (some 7)) 3
        ⟨[(7, ⟨"w", none, false⟩)], [], [], true, []⟩).sources =
      (rwnx_wakeup_lock ⟨[(7, ⟨"w", none, false⟩)], [], [], true, []⟩ (some 7)).sources
    ∧ (rwnx_wakeup_lock ⟨[(7, ⟨"w", none, false⟩)], [], [], true, []⟩ (some 7)).held (some 7)
        = true :=
  ⟨(rwnx_wakeup_lock_idempotent ⟨[(7, ⟨"w", none, false⟩)], [], [], true, []⟩ (some 7) 3
      (by decide)).1,
   (rwnx_wakeup_lock_idempotent ⟨[(7, ⟨"w", none, false⟩)], [], [], true, []⟩ (some 7) 3
      (by decide)).2.2.2 7 rfl (by decide)⟩

theorem held_unlock (env : PmEnv) (h : Option Nat) : (rwnx_wakeup_unlock env h).held h = false := by
  cases h with
  | none => rfl
  | some p => exact active_relax_self (AICWFDBG env _) p

/-- C6: for every handle `h`, `rwnx_wakeup_lock` followed by
`rwnx_wakeup_unlock` leaves `h` released whatever its held-state was before,
and `rwnx_wakeup_unlock` on a released handle leaves it released.  On a
registered handle the lock in between does hold the source, and the source is
still registered after the pair. -/
theorem rwnx_wakeup_lock_unlock_released (env : PmEnv) (h : Option Nat) :
    (rwnx_wakeup_unlock (rwnx_wakeup_lock env h) h).held h = false
    ∧ (env.held h = false → (rwnx_wakeup_unlock env h).held h = false)
    ∧ (∀ ws, h = some ws → env.registered ws = true →
        (rwnx_wakeup_lock env h).held h = true
        ∧ (rwnx_wakeup_unlock (rwnx_wakeup_lock env h) h).registered ws = true) := by
  refine ⟨held_unlock _ h, fun _ => held_unlock env h, ?_⟩
  intro ws hws hreg
  subst hws
  unfold PmEnv.registered at hreg
  constructor
  · show (rwnx_wakeup_lock env (some ws)).active ws = true
    unfold PmEnv.active
    rw [rwnx_wakeup_lock_sources]
    show (match (set_active ws true env.sources).lookup ws with
      | some s => s.active
      | none => false) = true
    rw [lookup_set_active_self]
    cases hl : env.sources.lookup ws with
    | none => simp [hl] at hreg
    | some s => rfl
  · unfold PmEnv.registered
    rw [rwnx_wakeup_unlock_sources, rwnx_wakeup_lock_sources]
    show ((set_active ws false (set_active ws true env.sources)).lookup ws).isSome = true
    rw [lookup_set_active_self, lookup_set_active_self]
    cases hl : env.sources.lookup ws with
    | none => simp [hl] at hreg
    | some s => rfl

/-- Witness of C6: a released registered source stays released under unlock,
and is held between the lock and the unlock. -/
theorem rwnx_wakeup_lock_unlock_released_witness :
    (rwnx_wakeup_unlock ⟨[(7, ⟨"w", none, false⟩)], [], [], true, []⟩ (some 7)).held (some 7)
        = false
    ∧ (rwnx_wakeup_lock ⟨[(7, ⟨"w", none, false⟩)], [], [], true, []⟩ (some 7)).held (some 7)
        = true :=
  ⟨(rwnx_wakeup_lock_unlock_released ⟨[(7, ⟨"w", none, false⟩)], [], [], true, []⟩
      (some 7)).2.1 (by decide),
   ((rwnx_wakeup_lock_unlock_released ⟨[(7, ⟨"w", none, false⟩)], [], [], true, []⟩
      (some 7)).2.2 7 rfl (by decide)).1⟩

/-! ## Registration -/

theorem alloc_cases (env : PmEnv) (dev : Option Nat) (name : String) :
    env.alloc dev name = (env.sources, none) ∨
    env.alloc dev name =
      ((fresh_addr env.sources, ⟨name, dev, false⟩) :: env.sources,
        some (fresh_addr env.sources)) := by
  unfold PmEnv.alloc
  split
  · exact Or.inl rfl
  · exact Or.inr rfl

theorem KERNEL_VERSION_eq (a b c : Nat) : KERNEL_VERSION a b c = a * 65536 + b * 256 + c := by
  simp [KERNEL_VERSION, Nat.shiftLeft_eq]

theorem rwnx_wakeup_register_eq (cfg : BuildConfig) (env : PmEnv) (dev : Option Nat)
    (name : String) :
    rwnx_wakeup_register cfg env dev name =
      if uses_bound_form cfg then wakeup_source_register env dev name
      else wakeup_source_register_name env name := by
  unfold rwnx_wakeup_register uses_bound_form
  by_cases h1 : KERNEL_VERSION 5 4 0 ≤ cfg.LINUX_VERSION_CODE
  · simp [h1]
  · by_cases h2 : KERNEL_VERSION 4 5 0 ≤ cfg.LINUX_VERSION_CODE
    · cases h3 : cfg.CONFIG_PLATFORM_ROCKCHIP2 <;> cases h4 : cfg.CONFIG_PLATFORM_ROCKCHIP <;>
        simp [h1, h2]
    · cases h3 : cfg.CONFIG_PLATFORM_ROCKCHIP2 <;> cases h4 : cfg.CONFIG_PLATFORM_ROCKCHIP <;>
        simp [h1, h2]

/-- C10: the registration form used by `rwnx_wakeup_register` is a function of
the build configuration alone: the `(dev, name)` form exactly when the kernel
version code is at least that of 5.4.0, or a Rockchip flag is defined and the
code is at least that of 4.5.0, and the name-only form otherwise, in which case
`dev` has no influence.  In every configuration exactly one registration call
is made, with the given name, and the value returned is the one that call
returned.  For a version code that encodes a version `a.b.c`, the comparison on
codes is the comparison of versions. -/
theorem rwnx_wakeup_register_build_time (cfg : BuildConfig) (env : PmEnv) (dev : Option Nat)
    (name : String) :
    (rwnx_wakeup_register cfg env dev name =
      if uses_bound_form cfg then wakeup_source_register env dev name
      else wakeup_source_register_name env name)
    ∧ (uses_bound_form cfg = false → ∀ dev2,
        rwnx_wakeup_register cfg env dev2 name = rwnx_wakeup_register cfg env dev name)
    ∧ (rwnx_wakeup_register cfg env dev name).1.calls = env.calls ++
        [if uses_bound_form cfg then
          PmCall.wakeup_source_register dev name (rwnx_wakeup_register cfg env dev name).2
        else
          PmCall.wakeup_source_register_name name (rwnx_wakeup_register cfg env dev name).2]
    ∧ (∀ p, (rwnx_wakeup_register cfg env dev name).2 = some p →
        (rwnx_wakeup_register cfg env dev name).1.sources.lookup p =
          some ⟨name, if uses_bound_form cfg then dev else none, false⟩)
    ∧ (∀ a b c, b ≤ 255 → c ≤ 255 → cfg.LINUX_VERSION_CODE = KERNEL_VERSION a b c →
        (uses_bound_form cfg = true ↔
          (5 < a ∨ (a = 5 ∧ 4 ≤ b)) ∨
          ((cfg.CONFIG_PLATFORM_ROCKCHIP2 = true ∨ cfg.CONFIG_PLATFORM_ROCKCHIP = true) ∧
            (4 < a ∨ (a = 4 ∧ 5 ≤ b))))) := by
  refine ⟨rwnx_wakeup_register_eq cfg env dev name, ?_, ?_, ?_, ?_⟩
  · intro h dev2
    rw [rwnx_wakeup_register_eq, rwnx_wakeup_register_eq, h]
    rfl
  · rw [rwnx_wakeup_register_eq]
    cases uses_bound_form cfg <;> rfl
  · intro p hp
    rw [rwnx_wakeup_register_eq] at hp ⊢
    cases hb : uses_bound_form cfg
    · rw [hb] at hp
      simp only [Bool.false_eq_true, if_false, wakeup_source_register_name] at hp ⊢
      rcases alloc_cases env none name with h | h
      · rw [h] at hp
        cases hp
      · rw [h] at hp ⊢
        simp only [Option.some.injEq] at hp
        subst hp
        simp [List.lookup_cons]
    · rw [hb] at hp
      simp only [if_true, wakeup_source_register] at hp ⊢
      rcases alloc_cases env dev name with h | h
      · rw [h] at hp
        cases hp
      · rw [h] at hp ⊢
        simp only [Option.some.injEq] at hp
        subst hp
        simp [List.lookup_cons]
  · intro a b c hb hc hcode
    unfold uses_bound_form
    rw [hcode]
    simp only [KERNEL_VERSION_eq, Bool.or_eq_true, Bool.and_eq_true, decide_eq_true_eq]
    constructor
    · rintro (h | ⟨hr, h⟩)
      · left
        omega
      · right
        exact ⟨hr, by omega⟩
    · rintro (h | ⟨hr, h⟩)
      · left
        omega
      · right
        exact ⟨hr, by omega⟩

/-- Witness of C10: on a Rockchip build for kernel 4.4.0 the name-only form is
used and the device is ignored; kernel 4.4.0 is below both thresholds. -/
theorem rwnx_wakeup_register_build_time_witness :
    (∀ dev2, rwnx_wakeup_register ⟨KERNEL_VERSION 4 4 0, true, false⟩
        ⟨[], [], [], false, []⟩ dev2 "w" =
      rwnx_wakeup_register ⟨KERNEL_VERSION 4 4 0, true, false⟩
        ⟨[], [], [], false, []⟩ (some 5) "w")
    ∧ (rwnx_wakeup_register ⟨KERNEL_VERSION 4 4 0, true, false⟩
        ⟨[], [], [], false, []⟩ (some 5) "w").1.sources.lookup 1 =
          some ⟨"w", if uses_bound_form ⟨KERNEL_VERSION 4 4 0, true, false⟩ then some 5 else none,
            false⟩
    ∧ (uses_bound_form ⟨KERNEL_VERSION 4 4 0, true, false⟩ = true ↔
          (5 < 4 ∨ (4 = 5 ∧ 4 ≤ 4)) ∨
          (((true : Bool) = true ∨ (false : Bool) = true) ∧ (4 < 4 ∨ (4 = 4 ∧ 5 ≤ 4)))) :=
  ⟨(rwnx_wakeup_register_build_time ⟨KERNEL_VERSION 4 4 0, true, false⟩
      ⟨[], [], [], false, []⟩ (some 5) "w").2.1 (by decide),
   (rwnx_wakeup_register_build_time ⟨KERNEL_VERSION 4 4 0, true, false⟩
      ⟨[], [], [], false, []⟩ (some 5) "w").2.2.2.1 1 (by decide),
   (rwnx_wakeup_register_build_time ⟨KERNEL_VERSION 4 4 0, true, false⟩
      ⟨[], [], [], false, []⟩ (some 5) "w").2.2.2.2 4 4 0 (by decide) (by decide) rfl⟩

/-! ## The group of four wakelocks -/

theorem wakeup_source_register_ret_none (env : PmEnv) (dev : Option Nat) (name : String) :
    (wakeup_source_register env dev name).2 = none ↔ env.alloc_fail.headD false = true := by
  show (env.alloc dev name).2 = none ↔ _
  unfold PmEnv.alloc
  split
  · rename_i h
    exact ⟨fun _ => h, fun _ => rfl⟩
  · rename_i h
    exact ⟨fun hn => (by cases hn), fun ht => absurd ht h⟩

theorem headD_tail (l : List Bool) (i : Nat) :
    (Nat.iterate List.tail i l).headD false = l.getD i false := by
  induction i generalizing l with
  | zero => cases l <;> rfl
  | succ i ih =>
    cases l with
    | nil =>
      have h : (Nat.iterate List.tail (i + 1) ([] : List Bool)) = Nat.iterate List.tail i [] := rfl
      rw [h, ih]
      simp
    | cons b l =>
      have h : (Nat.iterate List.tail (i + 1) (b :: l)) = Nat.iterate List.tail i l := rfl
      rw [h, ih]
      simp

/-- C9: `aicwf_wakeup_lock_init` issues exactly four environment calls, all
of them `wakeup_source_register(NULL, name)` as made by `rwnx_wakeup_init`, in
the order tx, rx, irqrx, pwrctrl with the four fixed names, and the pointer
each call returned is the value of the corresponding field afterwards.  There
is no rollback: whatever the first registrations returned, the i-th field is
null exactly when the i-th allocation fails, the four allocation outcomes are
all consumed, and when the four succeed the four fields are non-null. -/
theorem aicwf_wakeup_lock_init_four_registrations (env : PmEnv) (hw : rwnx_hw) :
    (aicwf_wakeup_lock_init env hw).1.calls = env.calls ++
      [PmCall.wakeup_source_register none "rwnx_tx_wakelock"
          (aicwf_wakeup_lock_init env hw).2.ws_tx,
       PmCall.wakeup_source_register none "rwnx_rx_wakelock"
          (aicwf_wakeup_lock_init env hw).2.ws_rx,
       PmCall.wakeup_source_register none "rwnx_irqrx_wakelock"
          (aicwf_wakeup_lock_init env hw).2.ws_irqrx,
       PmCall.wakeup_source_register none "rwnx_pwrcrl_wakelock"
          (aicwf_wakeup_lock_init env hw).2.ws_pwrctrl]
    ∧ (aicwf_wakeup_lock_init env hw).2.ws_tx = (rwnx_wakeup_init env "rwnx_tx_wakelock").2
    ∧ (aicwf_wakeup_lock_init env hw).2.ws_rx =
        (rwnx_wakeup_init (rwnx_wakeup_init env "rwnx_tx_wakelock").1 "rwnx_rx_wakelock").2
    ∧ (aicwf_wakeup_lock_init env hw).2.ws_irqrx =
        (rwnx_wakeup_init (rwnx_wakeup_init (rwnx_wakeup_init env "rwnx_tx_wakelock").1
          "rwnx_rx_wakelock").1 "rwnx_irqrx_wakelock").2
    ∧ (aicwf_wakeup_lock_init env hw).2.ws_pwrctrl =
        (rwnx_wakeup_init (rwnx_wakeup_init (rwnx_wakeup_init (rwnx_wakeup_init env
          "rwnx_tx_wakelock").1 "rwnx_rx_wakelock").1 "rwnx_irqrx_wakelock").1
          "rwnx_pwrcrl_wakelock").2
    ∧ ((aicwf_wakeup_lock_init env hw).2.ws_tx = none ↔ env.alloc_fail.getD 0 false = true)
    ∧ ((aicwf_wakeup_lock_init env hw).2.ws_rx = none ↔ env.alloc_fail.getD 1 false = true)
    ∧ ((aicwf_wakeup_lock_init env hw).2.ws_irqrx = none ↔ env.alloc_fail.getD 2 false = true)
    ∧ ((aicwf_wakeup_lock_init env hw).2.ws_pwrctrl = none ↔
        env.alloc_fail.getD 3 false = true)
    ∧ (aicwf_wakeup_lock_init env hw).1.alloc_fail = env.alloc_fail.drop 4
    ∧ ((∀ i, i < 4 → env.alloc_fail.getD i false = false) →
        (aicwf_wakeup_lock_init env hw).2.ws_tx ≠ none
        ∧ (aicwf_wakeup_lock_init env hw).2.ws_rx ≠ none
        ∧ (aicwf_wakeup_lock_init env hw).2.ws_irqrx ≠ none
        ∧ (aicwf_wakeup_lock_init env hw).2.ws_pwrctrl ≠ none) := by
  have h0 : ((aicwf_wakeup_lock_init env hw).2.ws_tx = none ↔
      env.alloc_fail.getD 0 false = true) := by
    rw [← headD_tail]
    exact wakeup_source_register_ret_none env none _
  have h1 : ((aicwf_wakeup_lock_init env hw).2.ws_rx = none ↔
      env.alloc_fail.getD 1 false = true) := by
    rw [← headD_tail]
    exact wakeup_source_register_ret_none _ none _
  have h2 : ((aicwf_wakeup_lock_init env hw).2.ws_irqrx = none ↔
      env.alloc_fail.getD 2 false = true) := by
    rw [← headD_tail]
    exact wakeup_source_register_ret_none _ none _
  have h3 : ((aicwf_wakeup_lock_init env hw).2.ws_pwrctrl = none ↔
      env.alloc_fail.getD 3 false = true) := by
    rw [← headD_tail]
    exact wakeup_source_register_ret_none _ none _
  refine ⟨?_, rfl, rfl, rfl, rfl, h0, h1, h2, h3, ?_, ?_⟩
  · simp [aicwf_wakeup_lock_init, rwnx_wakeup_init, wakeup_source_register]
  · show env.alloc_fail.tail.tail.tail.tail = _
    rcases env.alloc_fail with _ | ⟨b1, _ | ⟨b2, _ | ⟨b3, _ | ⟨b4, rest⟩⟩⟩⟩ <;> rfl
  · intro hall
    refine ⟨?_, ?_, ?_, ?_⟩
    · rw [Ne, h0, hall 0 (by omega)]
      simp
    · rw [Ne, h1, hall 1 (by omega)]
      simp
    · rw [Ne, h2, hall 2 (by omega)]
      simp
    · rw [Ne, h3, hall 3 (by omega)]
      simp

/-- Witness of C9: the first and third registrations fail, the second and
fourth succeed; with no failure the four fields are set. -/
theorem aicwf_wakeup_lock_init_four_registrations_witness :
    (aicwf_wakeup_lock_init ⟨[], [true, false, true, false], [], false, []⟩
        ⟨none, none, none, none⟩).2 = ⟨none, some 1, none, some 2⟩
    ∧ ((aicwf_wakeup_lock_init ⟨[], [], [], false, []⟩ ⟨none, none, none, none⟩).2.ws_tx ≠ none
        ∧ (aicwf_wakeup_lock_init ⟨[], [], [], false, []⟩ ⟨none, none, none, none⟩).2.ws_rx
            ≠ none
        ∧ (aicwf_wakeup_lock_init ⟨[], [], [], false, []⟩ ⟨none, none, none, none⟩).2.ws_irqrx
            ≠ none
        ∧ (aicwf_wakeup_lock_init ⟨[], [], [], false, []⟩ ⟨none, none, none, none⟩).2.ws_pwrctrl
            ≠ none) :=
  ⟨by decide,
   (aicwf_wakeup_lock_init_four_registrations ⟨[], [], [], false, []⟩
      ⟨none, none, none, none⟩).2.2.2.2.2.2.2.2.2.2 (by intro i _; simp)⟩

theorem rwnx_wakeup_deinit_sources (env : PmEnv) (h : Option Nat) :
    (rwnx_wakeup_deinit env h).sources = drop_handle h env.sources := by
  cases h with
  | none => rfl
  | some p =>
    by_cases ha : env.active p = true
    · simp only [rwnx_wakeup_deinit, ha, if_true]
      exact filter_set_active p false env.sources
    · simp only [rwnx_wakeup_deinit, ha]
      rfl

theorem rwnx_wakeup_deinit_alloc_fail (env : PmEnv) (h : Option Nat) :
    (rwnx_wakeup_deinit env h).alloc_fail = env.alloc_fail := by
  cases h with
  | none => rfl
  | some p =>
    by_cases ha : env.active p = true
    · simp only [rwnx_wakeup_deinit, ha, if_true]
      rfl
    · simp only [rwnx_wakeup_deinit, ha]
      rfl

theorem rwnx_wakeup_deinit_calls (env : PmEnv) (h : Option Nat) :
    (rwnx_wakeup_deinit env h).calls = env.calls ++ deinit_calls env h := by
  cases h with
  | none => simp [rwnx_wakeup_deinit, deinit_calls]
  | some p =>
    by_cases ha : env.active p = true
    · simp [rwnx_wakeup_deinit, deinit_calls, ha, wakeup_source_unregister, __pm_relax]
    · simp [rwnx_wakeup_deinit, deinit_calls, ha, wakeup_source_unregister]

theorem drop_handle_comm (a b : Option Nat) (l : List (Nat × wakeup_source)) :
    drop_handle a (drop_handle b l) = drop_handle b (drop_handle a l) := by
  cases a <;> cases b <;> first | rfl | exact List.filter_comm _ _ _

theorem drop_handle_register (env : PmEnv) (dev : Option Nat) (name : String) :
    drop_handle (wakeup_source_register env dev name).2
      (wakeup_source_register env dev name).1.sources = env.sources := by
  show drop_handle (env.alloc dev name).2 (env.alloc dev name).1 = env.sources
  rcases alloc_cases env dev name with h | h
  · rw [h]
    rfl
  · rw [h]
    show List.filter (fun e => decide (e.1 ≠ fresh_addr env.sources))
      ((fresh_addr env.sources, ⟨name, dev, false⟩) :: env.sources) = env.sources
    rw [List.filter_cons_of_neg (by simp)]
    exact filter_fresh_addr env.sources

theorem lookup_drop_handle_none (h : Option Nat) (p : Nat) (l : List (Nat × wakeup_source))
    (hl : l.lookup p = none) : (drop_handle h l).lookup p = none := by
  cases h with
  | none => exact hl
  | some q =>
    rw [List.lookup_eq_none_iff] at hl ⊢
    intro e he
    exact hl e (List.mem_of_mem_filter he)

theorem registered_register_ret (env : PmEnv) (dev : Option Nat) (name : String) (p : Nat)
    (hp : (wakeup_source_register env dev name).2 = some p) :
    (wakeup_source_register env dev name).1.registered p = true := by
  have hp2 : (env.alloc dev name).2 = some p := hp
  show ((env.alloc dev name).1.lookup p).isSome = true
  rcases alloc_cases env dev name with h | h
  · rw [h] at hp2
    cases hp2
  · rw [h] at hp2 ⊢
    simp only [Option.some.injEq] at hp2
    subst hp2
    simp [List.lookup_cons]

theorem registered_register_mono (env : PmEnv) (dev : Option Nat) (name : String) (p : Nat)
    (hp : env.registered p = true) :
    (wakeup_source_register env dev name).1.registered p = true := by
  show ((env.alloc dev name).1.lookup p).isSome = true
  rcases alloc_cases env dev name with h | h
  · rw [h]
    exact hp
  · rw [h]
    by_cases hq : p = fresh_addr env.sources
    · simp [List.lookup_cons, hq]
    · have hq2 : (p == fresh_addr env.sources) = false := by simpa using hq
      simp only [List.lookup_cons, hq2]
      exact hp

/-- C3: `aicwf_wakeup_lock_init` followed at once by `aicwf_wakeup_lock_deinit`
leaves the four fields null, whatever the context held before and whichever
registrations failed; every source the init registered (it is registered after
the init) is unregistered after the deinit, and the table of registered sources
is the one from before the init. -/
theorem aicwf_wakeup_lock_init_then_deinit (env : PmEnv) (hw : rwnx_hw) :
    (aicwf_wakeup_lock_deinit (aicwf_wakeup_lock_init env hw).1
        (aicwf_wakeup_lock_init env hw).2).2 = ⟨none, none, none, none⟩
    ∧ (aicwf_wakeup_lock_deinit (aicwf_wakeup_lock_init env hw).1
        (aicwf_wakeup_lock_init env hw).2).1.sources = env.sources
    ∧ (∀ p, some p ∈ (aicwf_wakeup_lock_init env hw).2.handles →
        (aicwf_wakeup_lock_init env hw).1.registered p = true
        ∧ (aicwf_wakeup_lock_deinit (aicwf_wakeup_lock_init env hw).1
            (aicwf_wakeup_lock_init env hw).2).1.registered p = false) := by
  have hsrc : (aicwf_wakeup_lock_deinit (aicwf_wakeup_lock_init env hw).1
        (aicwf_wakeup_lock_init env hw).2).1.sources = env.sources := by
    simp only [aicwf_wakeup_lock_deinit, aicwf_wakeup_lock_init, rwnx_wakeup_init,
      rwnx_wakeup_deinit_sources]
    rw [drop_handle_comm _ (wakeup_source_register env none "rwnx_tx_wakelock").2,
      drop_handle_comm _ (wakeup_source_register env none "rwnx_tx_wakelock").2,
      drop_handle_comm _ (wakeup_source_register env none "rwnx_tx_wakelock").2,
      drop_handle_comm _ (wakeup_source_register _ none "rwnx_rx_wakelock").2,
      drop_handle_comm _ (wakeup_source_register _ none "rwnx_rx_wakelock").2,
      drop_handle_comm _ (wakeup_source_register _ none "rwnx_irqrx_wakelock").2,
      drop_handle_register, drop_handle_register, drop_handle_register, drop_handle_register]
  refine ⟨rfl, hsrc, ?_⟩
  intro p hp
  simp only [rwnx_hw.handles, List.mem_cons, List.mem_singleton, List.not_mem_nil,
    or_false] at hp
  constructor
  · rcases hp with hp | hp | hp | hp
    · exact registered_register_mono _ _ _ _ (registered_register_mono _ _ _ _
        (registered_register_mono _ _ _ _ (registered_register_ret _ _ _ _ hp.symm)))
    · exact registered_register_mono _ _ _ _ (registered_register_mono _ _ _ _
        (registered_register_ret _ _ _ _ hp.symm))
    · exact registered_register_mono _ _ _ _ (registered_register_ret _ _ _ _ hp.symm)
    · exact registered_register_ret _ _ _ _ hp.symm
  · show (List.lookup p _).isSome = false
    have hnone : List.lookup p (aicwf_wakeup_lock_deinit (aicwf_wakeup_lock_init env hw).1
        (aicwf_wakeup_lock_init env hw).2).1.sources = none := by
      simp only [aicwf_wakeup_lock_deinit, rwnx_wakeup_deinit_sources]
      rcases hp with hp | hp | hp | hp
      · rw [← hp]
        exact lookup_drop_handle_none _ _ _ (lookup_drop_handle_none _ _ _
          (lookup_drop_handle_none _ _ _ (lookup_filter_self p _)))
      · rw [← hp]
        exact lookup_drop_handle_none _ _ _ (lookup_drop_handle_none _ _ _
          (lookup_filter_self p _))
      · rw [← hp]
        exact lookup_drop_handle_none _ _ _ (lookup_filter_self p _)
      · rw [← hp]
        exact lookup_filter_self p _
    rw [hnone]
    rfl

/-- Witness of C3: the second registration fails; the sources 8 and 9 that
the init registered are gone after the deinit and source 7 is untouched. -/
theorem aicwf_wakeup_lock_init_then_deinit_witness :
    (aicwf_wakeup_lock_init ⟨[(7, ⟨"w", none, true⟩)], [false, true], [], false, []⟩
        ⟨some 7, none, none, none⟩).1.registered 8 = true
    ∧ (aicwf_wakeup_lock_deinit
        (aicwf_wakeup_lock_init ⟨[(7, ⟨"w", none, true⟩)], [false, true], [], false, []⟩
          ⟨some 7, none, none, none⟩).1
        (aicwf_wakeup_lock_init ⟨[(7, ⟨"w", none, true⟩)], [false, true], [], false, []⟩
          ⟨some 7, none, none, none⟩).2).1.registered 8 = false :=
  (aicwf_wakeup_lock_init_then_deinit ⟨[(7, ⟨"w", none, true⟩)], [false, true], [], false, []⟩
    ⟨some 7, none, none, none⟩).2.2 8 (by decide)

theorem active_deinit_ne (env : PmEnv) (h : Option Nat) (q : Nat) (hq : h ≠ some q) :
    (rwnx_wakeup_deinit env h).active q = env.active q := by
  unfold PmEnv.active
  rw [rwnx_wakeup_deinit_sources]
  cases h with
  | none => rfl
  | some p =>
    have hne : q ≠ p := fun e => hq (by rw [e])
    show (match (env.sources.filter (fun e => e.1 ≠ p)).lookup q with
      | some s => s.active
      | none => false) = _
    rw [lookup_filter_ne p q env.sources hne]

theorem deinit_calls_congr (e1 e2 : PmEnv) (h : Option Nat)
    (ha : ∀ q, h = some q → e1.active q = e2.active q) :
    deinit_calls e1 h = deinit_calls e2 h := by
  cases h with
  | none => rfl
  | some q =>
    simp only [deinit_calls, ha q rfl]

theorem foldl_deinit_calls (hs : List (Option Nat)) (env : PmEnv)
    (hd : hs.reduceOption.Nodup) :
    (hs.foldl rwnx_wakeup_deinit env).calls = env.calls ++ hs.flatMap (deinit_calls env) := by
  induction hs generalizing env with
  | nil => simp
  | cons h hs ih =>
    have hd2 : hs.reduceOption.Nodup := by
      cases h with
      | none => simpa [List.reduceOption_cons_of_none] using hd
      | some p =>
        rw [List.reduceOption_cons_of_some] at hd
        exact (List.nodup_cons.mp hd).2
    have hcongr : ∀ x ∈ hs, deinit_calls (rwnx_wakeup_deinit env h) x = deinit_calls env x := by
      intro x hx
      apply deinit_calls_congr
      intro q hxq
      apply active_deinit_ne
      intro hh
      subst hh
      subst hxq
      rw [List.reduceOption_cons_of_some] at hd
      exact (List.nodup_cons.mp hd).1 (List.reduceOption_mem_iff.mpr hx)
    have hfm : hs.flatMap (deinit_calls (rwnx_wakeup_deinit env h)) =
        hs.flatMap (deinit_calls env) := by
      clear ih hd hd2
      induction hs with
      | nil => rfl
      | cons y ys ihy =>
        simp only [List.flatMap_cons]
        rw [hcongr y (List.mem_cons_self y ys),
          ihy (fun x hx => hcongr x (List.mem_cons_of_mem y hx))]
    rw [List.foldl_cons, ih _ hd2, rwnx_wakeup_deinit_calls, hfm, List.flatMap_cons,
      List.append_assoc]

theorem count_unregister_deinit_calls (env : PmEnv) (h : Option Nat) (p : Nat) :
    (deinit_calls env h).count (PmCall.wakeup_source_unregister p) =
      if h = some p then 1 else 0 := by
  cases h with
  | none => simp [deinit_calls]
  | some q =>
    by_cases hq : q = p
    · subst hq
      by_cases ha : env.active q = true <;> simp [deinit_calls, ha]
    · have hq2 : ¬ p = q := fun e => hq e.symm
      rw [if_neg (by simp [hq]), List.count_eq_zero]
      by_cases ha : env.active q = true <;> simp [deinit_calls, ha, hq2]

theorem count_relax_deinit_calls (env : PmEnv) (h : Option Nat) (p : Nat) :
    (deinit_calls env h).count (PmCall.__pm_relax p) =
      if h = some p ∧ env.active p = true then 1 else 0 := by
  cases h with
  | none => simp [deinit_calls]
  | some q =>
    by_cases hq : q = p
    · subst hq
      by_cases ha : env.active q = true <;> simp [deinit_calls, ha]
    · have hq2 : ¬ p = q := fun e => hq e.symm
      rw [if_neg (by simp [hq]), List.count_eq_zero]
      by_cases ha : env.active q = true <;> simp [deinit_calls, ha, hq2]

theorem count_some_reduceOption (hs : List (Option Nat)) (p : Nat) :
    hs.count (some p) = hs.reduceOption.count p := by
  induction hs with
  | nil => rfl
  | cons h hs ih =>
    cases h with
    | none =>
      rw [List.reduceOption_cons_of_none, List.count_cons_of_ne (by simp), ih]
    | some q =>
      rw [List.reduceOption_cons_of_some, List.count_cons, List.count_cons, ih]
      by_cases hq : q = p
      · subst hq
        simp
      · simp [hq]

theorem count_unregister_flatMap (env : PmEnv) (hs : List (Option Nat)) (p : Nat) :
    (hs.flatMap (deinit_calls env)).count (PmCall.wakeup_source_unregister p) =
      hs.count (some p) := by
  induction hs with
  | nil => rfl
  | cons h hs ih =>
    rw [List.flatMap_cons, List.count_append, ih, count_unregister_deinit_calls,
      List.count_cons]
    by_cases hq : h = some p
    · simp [hq]
      omega
    · simp [hq]

theorem count_relax_flatMap (env : PmEnv) (hs : List (Option Nat)) (p : Nat) :
    (hs.flatMap (deinit_calls env)).count (PmCall.__pm_relax p) =
      if env.active p = true then hs.count (some p) else 0 := by
  induction hs with
  | nil => simp
  | cons h hs ih =>
    rw [List.flatMap_cons, List.count_append, ih, count_relax_deinit_calls,
      List.count_cons]
    by_cases hq : h = some p
    · by_cases ha : env.active p = true
      · simp [hq, ha]
        omega
      · simp [hq, ha]
    · by_cases ha : env.active p = true
      · simp [hq, ha]
      · simp [hq, ha]

theorem foldl_deinit_sources (hs : List (Option Nat)) (env : PmEnv) :
    (hs.foldl rwnx_wakeup_deinit env).sources =
      env.sources.filter (fun e => decide (some e.1 ∉ hs)) := by
  induction hs generalizing env with
  | nil => simp
  | cons h hs ih =>
    rw [List.foldl_cons, ih, rwnx_wakeup_deinit_sources]
    cases h with
    | none =>
      show List.filter _ env.sources = _
      apply List.filter_congr
      intro e _
      simp
    | some p =>
      show List.filter _ (List.filter _ env.sources) = _
      rw [List.filter_filter]
      apply List.filter_congr
      intro e _
      by_cases hep : e.1 = p
      · simp [hep]
      · simp [hep]

theorem foldl_deinit_alloc_fail (hs : List (Option Nat)) (env : PmEnv) :
    (hs.foldl rwnx_wakeup_deinit env).alloc_fail = env.alloc_fail := by
  induction hs generalizing env with
  | nil => rfl
  | cons h hs ih => rw [List.foldl_cons, ih, rwnx_wakeup_deinit_alloc_fail]

/-- C4: for a hardware context whose non-null handles are pairwise distinct,
`aicwf_wakeup_lock_deinit` is `rwnx_wakeup_deinit` applied to the four handles
in turn, and leaves the four fields null.  The environment calls it issues are
those of the four handles, each judged on its held-state at entry: nothing for
a null field, otherwise a release when held followed by the unregistration.
Hence every non-null handle is unregistered exactly once, released exactly
once if it was held and never otherwise, and is not registered afterwards;
the sources left are exactly those no field pointed to.  Processing the four
handles in any other order gives the same table of sources and the same
pending allocation outcomes. -/
theorem aicwf_wakeup_lock_deinit_all_four (env : PmEnv) (hw : rwnx_hw)
    (hdist : hw.handles.reduceOption.Nodup) :
    (aicwf_wakeup_lock_deinit env hw).2 = ⟨none, none, none, none⟩
    ∧ (aicwf_wakeup_lock_deinit env hw).1 = hw.handles.foldl rwnx_wakeup_deinit env
    ∧ (aicwf_wakeup_lock_deinit env hw).1.calls = env.calls ++
        (deinit_calls env hw.ws_tx ++ deinit_calls env hw.ws_rx ++
          deinit_calls env hw.ws_irqrx ++ deinit_calls env hw.ws_pwrctrl)
    ∧ (∀ p, some p ∈ hw.handles →
        (deinit_calls env hw.ws_tx ++ deinit_calls env hw.ws_rx ++
          deinit_calls env hw.ws_irqrx ++ deinit_calls env hw.ws_pwrctrl).count
            (PmCall.wakeup_source_unregister p) = 1
        ∧ (deinit_calls env hw.ws_tx ++ deinit_calls env hw.ws_rx ++
          deinit_calls env hw.ws_irqrx ++ deinit_calls env hw.ws_pwrctrl).count
            (PmCall.__pm_relax p) = (if env.active p = true then 1 else 0)
        ∧ (aicwf_wakeup_lock_deinit env hw).1.registered p = false)
    ∧ (aicwf_wakeup_lock_deinit env hw).1.sources =
        env.sources.filter (fun e => decide (some e.1 ∉ hw.handles))
    ∧ (∀ l : List (Option Nat), l.Perm hw.handles →
        (l.foldl rwnx_wakeup_deinit env).sources = (aicwf_wakeup_lock_deinit env hw).1.sources
        ∧ (l.foldl rwnx_wakeup_deinit env).alloc_fail =
            (aicwf_wakeup_lock_deinit env hw).1.alloc_fail) := by
  have hfold : (aicwf_wakeup_lock_deinit env hw).1 = hw.handles.foldl rwnx_wakeup_deinit env :=
    rfl
  have happ : hw.handles.flatMap (deinit_calls env) =
      deinit_calls env hw.ws_tx ++ deinit_calls env hw.ws_rx ++
        deinit_calls env hw.ws_irqrx ++ deinit_calls env hw.ws_pwrctrl := by
    simp [rwnx_hw.handles, List.flatMap_cons]
  have hsrc : (aicwf_wakeup_lock_deinit env hw).1.sources =
      env.sources.filter (fun e => decide (some e.1 ∉ hw.handles)) := by
    rw [hfold, foldl_deinit_sources]
  refine ⟨rfl, hfold, ?_, ?_, hsrc, ?_⟩
  · rw [hfold, foldl_deinit_calls _ _ hdist, happ]
  · intro p hp
    have hcount : hw.handles.count (some p) = 1 := by
      rw [count_some_reduceOption]
      exact List.count_eq_one_of_mem hdist (List.reduceOption_mem_iff.mpr hp)
    refine ⟨?_, ?_, ?_⟩
    · rw [← happ, count_unregister_flatMap, hcount]
    · rw [← happ, count_relax_flatMap, hcount]
    · unfold PmEnv.registered
      rw [hsrc]
      have hnone : List.lookup p
          (env.sources.filter (fun e => decide (some e.1 ∉ hw.handles))) = none := by
        rw [List.lookup_eq_none_iff]
        intro e he
        have hmem := (List.mem_filter.mp he).2
        simp only [decide_eq_true_eq] at hmem
        simp only [bne_iff_ne, ne_eq]
        intro hpe
        exact hmem (hpe ▸ hp)
      rw [hnone]
      rfl
  · intro l hl
    constructor
    · rw [hsrc, foldl_deinit_sources]
      apply List.filter_congr
      intro e _
      simp only [hl.mem_iff]
    · rw [hfold, foldl_deinit_alloc_fail, foldl_deinit_alloc_fail]

/-- Witness of C4: tx points to the held source 7, irqrx to the released
source 3, the other two fields are null; source 5 belongs to nobody. -/
theorem aicwf_wakeup_lock_deinit_all_four_witness :
    (aicwf_wakeup_lock_deinit
        ⟨[(7, ⟨"a", none, true⟩), (5, ⟨"b", none, true⟩), (3, ⟨"c", none, false⟩)],
          [], [], false, []⟩
        ⟨some 7, none, some 3, none⟩).1.calls =
      [PmCall.__pm_relax 7, PmCall.wakeup_source_unregister 7,
        PmCall.wakeup_source_unregister 3]
    ∧ (aicwf_wakeup_lock_deinit
        ⟨[(7, ⟨"a", none, true⟩), (5, ⟨"b", none, true⟩), (3, ⟨"c", none, false⟩)],
          [], [], false, []⟩
        ⟨some 7, none, some 3, none⟩).1.sources = [(5, ⟨"b", none, true⟩)]
    ∧ (aicwf_wakeup_lock_deinit
        ⟨[(7, ⟨"a", none, true⟩), (5, ⟨"b", none, true⟩), (3, ⟨"c", none, false⟩)],
          [], [], false, []⟩
        ⟨some 7, none, some 3, none⟩).2 = ⟨none, none, none, none⟩ :=
  ⟨by decide, by decide,
   (aicwf_wakeup_lock_deinit_all_four
      ⟨[(7, ⟨"a", none, true⟩), (5, ⟨"b", none, true⟩), (3, ⟨"c", none, false⟩)],
        [], [], false, []⟩
      ⟨some 7, none, some 3, none⟩ (by decide)).1⟩

end Rwnx
